import Mathlib

/-!
Shallow embedding of the gin-prometheus middleware (package ginprom).

The embedding follows the Go source:
* `request_helper.go` — `calculateRequestSize`, `calculateBodySizeStream`,
  `computeResponseSize`;
* `middleware.go` — `getRequestSize`, `handleUnmatchedPath`,
  `getPathWithFallback`, `MiddlewareWithMetrics` and its recording helpers,
  `WithUnmatchedRouteMarking`, `WithUnmatchedRouteGrouping`;
* the config/options file — `config`, `defaultConf`, `applyOpt`,
  `WithUnmatchedRouteHandling`.

An `io.Reader` body is modelled by the sequence of bytes it will deliver and
a flag saying whether the stream ends in an I/O error instead of EOF; a full
read (`io.Copy` / `io.ReadAll`) consumes the stream.  Byte counts use `Int`
(Go `int64`; the counted quantities are far below overflow).  The four
Prometheus collectors are modelled by lists of the recorded observations,
newest first, keyed by the label tuple `[status_code, method, path]`.
-/

namespace GinProm

/-- Model of an `io.ReadCloser` body stream: the bytes still available and
whether the stream fails with an I/O error once those bytes are exhausted
(`errAtEnd = false` means it ends with a clean EOF). -/
structure Reader where
  avail : List Nat
  errAtEnd : Bool
  deriving DecidableEq, Repr

/-- Reading a stream to the end (`io.Copy` into a buffer): delivers all
available bytes, then EOF or an I/O error; the stream is consumed either
way. -/
def readAll (rd : Reader) : Except Unit (List Nat) × Reader :=
  if rd.errAtEnd then (Except.error (), { avail := [], errAtEnd := true })
  else (Except.ok rd.avail, { avail := [], errAtEnd := false })

/-- Model of `*http.Request` restricted to the fields the package reads.
`urlString` is the value of `r.URL.String()` and `urlPath` the value of
`r.URL.Path` (in `net/http` a server request always has a non-nil URL).
`contentLength` is `r.ContentLength` (-1 when unknown); `body = none`
models a nil `r.Body`. -/
structure Request where
  method : String
  urlPath : String
  urlString : String
  proto : String
  headers : List (String × List String)
  contentLength : Int
  body : Option Reader
  deriving DecidableEq, Repr

/-- Byte count the header loop of `calculateRequestSize` adds: for every
header, name + ": ", and for every value, value + CRLF. -/
def headerBytes (headers : List (String × List String)) : Int :=
  headers.foldl
    (fun acc nv =>
      nv.2.foldl (fun a v => a + (v.length : Int) + 2) (acc + (nv.1.length : Int) + 2))
    0

/-- Request-line and header bytes `calculateRequestSize` always counts:
method + space, URL + space, protocol version + CRLF, the headers, and the
trailing CRLF. -/
def requestOverheadBytes (r : Request) : Int :=
  ((r.method.length : Int) + 1) + ((r.urlString.length : Int) + 1) +
    ((r.proto.length : Int) + 2) + headerBytes r.headers + 2

/-- `calculateBodySizeStream` (request_helper.go): counts the body bytes by
copying the body into a buffer, then restores `r.Body` as a fresh reader
over the buffered bytes.  On a copy error it returns the error and leaves
the (now consumed) body in place. -/
def calculateBodySizeStream (r : Request) : Except Unit Int × Request :=
  match r.body with
  | none => (Except.ok 0, r)
  | some rd =>
    match readAll rd with
    | (Except.error e, rdAfter) => (Except.error e, { r with body := some rdAfter })
    | (Except.ok bs, _) =>
        (Except.ok (bs.length : Int), { r with body := some { avail := bs, errAtEnd := false } })

/-- `calculateRequestSize` (request_helper.go): request-line and header
bytes, plus the body: `ContentLength` when positive, nothing when zero, and
otherwise (unknown length) the streamed body count when the body is
non-nil. -/
def calculateRequestSize (r : Request) : Except Unit Int × Request :=
  let size := requestOverheadBytes r
  if r.contentLength > 0 then (Except.ok (size + r.contentLength), r)
  else if r.contentLength = 0 then (Except.ok size, r)
  else
    match r.body with
    | none => (Except.ok size, r)
    | some _ =>
      match calculateBodySizeStream r with
      | (Except.error e, rAfter) => (Except.error e, rAfter)
      | (Except.ok bodySize, rAfter) => (Except.ok (size + bodySize), rAfter)

/-- `getRequestSize` (middleware.go): the declared `ContentLength` when it
is not -1, otherwise `calculateRequestSize`, falling back to 0 if the
calculation fails.  The pair threads the request whose body the calculation
may have replaced. -/
def getRequestSize (r : Request) : Int × Request :=
  if r.contentLength ≠ -1 then (r.contentLength, r)
  else
    match calculateRequestSize r with
    | (Except.error _, rAfter) => (0, rAfter)
    | (Except.ok size, rAfter) => (size, rAfter)

/-- Full read of a request's current body, `none` when the body is nil. -/
def bodyReadBytes (r : Request) : Option (Except Unit (List Nat)) :=
  r.body.map fun rd => (readAll rd).1

/-- The `config` struct of the options file: the recording flags, the filter
and aggregation functions, and the four unmatched-route fields. -/
structure Config where
  recordRequestSize : Bool
  recordResponseSize : Bool
  recordDuration : Bool
  filterPath : String → String → Bool
  pathAggregator : String → String → Int → String
  aggregateStatusCode : Bool
  markUnmatchedRoutes : Bool
  unmatchedRoutesGrouping : Bool
  handleUnmatchedRoutes : Bool
  groupUnmatchedRoutes : Bool

/-- The functional option type `Option func(*config)` of the Go source
(named `Opt` here because `Option` is taken by Lean's core type). -/
def Opt : Type := Config → Config

/-- `defaultConf`: the default configuration (its variadic `options`
parameter is unused in the source). -/
def defaultConf : Config where
  recordRequestSize := true
  recordResponseSize := true
  recordDuration := true
  filterPath := fun _ _ => false
  pathAggregator := fun route _ statusCode =>
    if route = "" then
      if statusCode ≥ 400 ∧ statusCode < 500 then "path_4xx"
      else if statusCode ≥ 500 then "path_5xx"
      else "missing_route"
    else route
  aggregateStatusCode := false
  markUnmatchedRoutes := false
  unmatchedRoutesGrouping := false
  handleUnmatchedRoutes := true
  groupUnmatchedRoutes := true

/-- `applyOpt`: apply the options in order to the default configuration. -/
def applyOpt (options : List Opt) : Config :=
  options.foldl (fun conf option => option conf) defaultConf

/-- `WithUnmatchedRouteMarking` (middleware.go): sets
`markUnmatchedRoutes`. -/
def WithUnmatchedRouteMarking (enabled : Bool) : Opt :=
  fun c => { c with markUnmatchedRoutes := enabled }

/-- `WithUnmatchedRouteGrouping` (middleware.go): sets
`unmatchedRoutesGrouping`. -/
def WithUnmatchedRouteGrouping (enabled : Bool) : Opt :=
  fun c => { c with unmatchedRoutesGrouping := enabled }

/-- `WithUnmatchedRouteHandling` (options file): sets
`handleUnmatchedRoutes`. -/
def WithUnmatchedRouteHandling (enabled : Bool) : Opt :=
  fun c => { c with handleUnmatchedRoutes := enabled }

/-- `WithFilterPath` (options file): installs a custom filter function. -/
def WithFilterPath (filter : String → String → Bool) : Opt :=
  fun c => { c with filterPath := filter }

/-- `handleUnmatchedPath` (middleware.go): when the route pattern is empty
and unmatched-route handling is enabled, replace the route by the grouping
sentinel or by the marked raw path; the path is returned unchanged. -/
def handleUnmatchedPath (conf : Config) (routePattern path : String) : String × String :=
  if routePattern = "" ∧ conf.handleUnmatchedRoutes then
    if conf.groupUnmatchedRoutes then ("/unmatched/*", path)
    else ("/unmatched" ++ path, path)
  else (routePattern, path)

/-- Model of `*gin.Context` restricted to what the middleware reads:
`c.FullPath()`, `c.Request`, and the response writer's status and written
size after the downstream handler ran (gin guarantees the writer and the
request are non-nil; `writer = none` models the nil writer that
`computeResponseSize` defends against). -/
structure GinCtx where
  fullPath : String
  request : Request
  status : Int
  writer : Option Int

/-- `computeResponseSize` (request_helper.go): the writer's size, 0 for a
nil writer. -/
def computeResponseSize (c : GinCtx) : Int :=
  match c.writer with
  | none => 0
  | some size => size

/-- `getPathWithFallback` (middleware.go): `c.FullPath()`, falling back to
the raw request URL path when no route matched, and to "/unknown" when that
is empty too (the nil checks on `c.Request` / `c.Request.URL` collapse: gin
serves requests with both set). -/
def getPathWithFallback (c : GinCtx) : String :=
  let path := c.fullPath
  if path = "" then
    let path := c.request.urlPath
    if path = "" then "/unknown" else path
  else path

/-- `getPathFromContext` (middleware.go): delegates to
`getPathWithFallback`. -/
def getPathFromContext (c : GinCtx) : String :=
  getPathWithFallback c

/-- State of the four Prometheus collectors, as the list of observations
each has received (newest first).  `totalInc` records the label tuple of
every `Inc` on the counter; the histogram lists pair each label tuple with
the observed value (durations are abstract `Int` time units). -/
structure MetricsState where
  totalInc : List (List String)
  respObs : List (List String × Int)
  reqObs : List (List String × Int)
  durObs : List (List String × Int)
  deriving DecidableEq, Repr

/-- A collector state in which nothing has been recorded. -/
def emptyState : MetricsState :=
  { totalInc := [], respObs := [], reqObs := [], durObs := [] }

/-- `recordRequestMetricsWithCollection` (middleware.go): always increment
the total-requests counter with the label tuple, then observe response
size, request size, and duration, each guarded by its `recordX` flag. -/
def recordRequestMetricsWithCollection (conf : Config) (c : GinCtx) (params : List String)
    (elapsed : Int) (st : MetricsState) : MetricsState :=
  let st1 := { st with totalInc := params :: st.totalInc }
  let st2 :=
    if conf.recordResponseSize then
      { st1 with respObs := (params, computeResponseSize c) :: st1.respObs }
    else st1
  let st3 :=
    if conf.recordRequestSize then
      { st2 with reqObs := (params, (getRequestSize c.request).1) :: st2.reqObs }
    else st2
  if conf.recordDuration then
    { st3 with durObs := (params, elapsed) :: st3.durObs }
  else st3

/-- `handleMetricsWithCollection` (middleware.go): build the status label
(`strconv.Itoa`, or the hundreds digit followed by "xx" when aggregation is
on; Go integer division truncates toward zero, hence `Int.tdiv`), aggregate
the path, and record with the `[status_code, method, path]` tuple. -/
def handleMetricsWithCollection (conf : Config) (c : GinCtx) (route path : String)
    (elapsed : Int) (st : MetricsState) : MetricsState :=
  let statusCode := toString c.status
  let statusCode :=
    if conf.aggregateStatusCode then toString (Int.tdiv c.status 100) ++ "xx" else statusCode
  let aggregatePath := conf.pathAggregator route path c.status
  recordRequestMetricsWithCollection conf c [statusCode, c.request.method, aggregatePath] elapsed st

/-- The (route, path) pair the middleware resolves before filtering:
`c.FullPath()` and `getPathFromContext`, passed through
`handleUnmatchedPath`. -/
def resolvedLabels (conf : Config) (c : GinCtx) : String × String :=
  handleUnmatchedPath conf c.fullPath (getPathFromContext c)

/-- The label tuple `handleMetricsWithCollection` computes for a request:
status label, HTTP method, aggregated path at the resolved (route, path). -/
def labelParams (conf : Config) (c : GinCtx) : List String :=
  let rp := resolvedLabels conf c
  let statusCode :=
    if conf.aggregateStatusCode then toString (Int.tdiv c.status 100) ++ "xx" else toString c.status
  [statusCode, c.request.method, conf.pathAggregator rp.1 rp.2 c.status]

/-- The per-request behaviour of the handler `MiddlewareWithMetrics`
returns: resolve route and path, and either stop after the filter (leaving
the collectors untouched) or record all metrics after the downstream
handler completes.  The returned Bool is true when the downstream handler
was invoked (`c.Next()` runs on both branches); `c` carries the
post-handler status and written size, and `elapsed` the measured
duration. -/
def middlewareHandle (conf : Config) (c : GinCtx) (elapsed : Int)
    (st : MetricsState) : MetricsState × Bool :=
  let rp := resolvedLabels conf c
  if conf.filterPath rp.1 rp.2 then (st, true)
  else (handleMetricsWithCollection conf c rp.1 rp.2 elapsed st, true)

/-- `MiddlewareWithMetrics` (middleware.go): apply the options, then behave
as `middlewareHandle` on every request. -/
def MiddlewareWithMetrics (options : List Opt) (c : GinCtx) (elapsed : Int)
    (st : MetricsState) : MetricsState × Bool :=
  middlewareHandle (applyOpt options) c elapsed st

/-! Concrete fixtures used to instantiate the theorems below. -/

/-- A request with a declared 5-byte content length. -/
def sampleDeclaredReq : Request where
  method := "GET"
  urlPath := "/x"
  urlString := "/x"
  proto := "HTTP/1.1"
  headers := [("Host", ["h"])]
  contentLength := 5
  body := none

/-- A chunked request (unknown content length) whose 2-byte body reads
cleanly. -/
def sampleStreamReq : Request where
  method := "POST"
  urlPath := "/up"
  urlString := "/up"
  proto := "HTTP/1.1"
  headers := [("Host", ["h"])]
  contentLength := -1
  body := some { avail := [104, 105], errAtEnd := false }

/-- A chunked request whose body stream fails with an I/O error. -/
def sampleFailReq : Request where
  method := "POST"
  urlPath := "/up"
  urlString := "/up"
  proto := "HTTP/1.1"
  headers := [("Host", ["h"])]
  contentLength := -1
  body := some { avail := [1, 2], errAtEnd := true }

/-- The default configuration with unmatched-route handling switched off. -/
def confNoHandle : Config :=
  { defaultConf with handleUnmatchedRoutes := false }

/-- The default configuration with unmatched-route grouping switched off. -/
def confUngrouped : Config :=
  { defaultConf with groupUnmatchedRoutes := false }

/-- A configuration whose filter excludes every request. -/
def filterAllConf : Config :=
  { defaultConf with filterPath := fun _ _ => true }

/-- A completed request context on a matched route. -/
def sampleCtx : GinCtx where
  fullPath := "/users/:id"
  request := sampleDeclaredReq
  status := 200
  writer := some 11

end GinProm

namespace GinProm

/-- C1: for a request with unknown content length (-1) and a non-nil body
that buffers cleanly, `calculateBodySizeStream` reports the body length and
— both directly and when reached through `calculateRequestSize` — replaces
the request's body with a fresh reader whose full read yields exactly the
original body bytes. -/
theorem body_round_trip (r : Request) (bs : List Nat)
    (hcl : r.contentLength = -1)
    (hb : r.body = some { avail := bs, errAtEnd := false }) :
    (calculateBodySizeStream r).1 = Except.ok (bs.length : Int) ∧
    bodyReadBytes (calculateBodySizeStream r).2 = some (Except.ok bs) ∧
    bodyReadBytes (calculateRequestSize r).2 = some (Except.ok bs) := by
  have h1 : ¬ r.contentLength > 0 := by omega
  have h2 : ¬ r.contentLength = 0 := by omega
  simp [calculateBodySizeStream, calculateRequestSize, bodyReadBytes, readAll, hb, h1, h2]

/-- Witness for C1 at a concrete chunked request with body bytes
`[104, 105]`. -/
theorem body_round_trip_witness :
    sampleStreamReq.contentLength = -1 ∧
    sampleStreamReq.body = some { avail := [104, 105], errAtEnd := false } ∧
    ((calculateBodySizeStream sampleStreamReq).1 =
        Except.ok (([104, 105] : List Nat).length : Int) ∧
      bodyReadBytes (calculateBodySizeStream sampleStreamReq).2 =
        some (Except.ok [104, 105]) ∧
      bodyReadBytes (calculateRequestSize sampleStreamReq).2 =
        some (Except.ok [104, 105])) :=
  ⟨by decide, by decide, body_round_trip sampleStreamReq [104, 105] (by decide) (by decide)⟩

/-- C8: when the declared content length is non-negative, `getRequestSize`
returns exactly the declared length. -/
theorem declared_length_used (r : Request) (h : 0 ≤ r.contentLength) :
    (getRequestSize r).1 = r.contentLength := by
  have hne : ¬ r.contentLength = -1 := by omega
  simp [getRequestSize, hne]

/-- Witness for C8 at a request declaring a 5-byte body. -/
theorem declared_length_used_witness :
    0 ≤ sampleDeclaredReq.contentLength ∧
    (getRequestSize sampleDeclaredReq).1 = sampleDeclaredReq.contentLength :=
  ⟨by decide, declared_length_used sampleDeclaredReq (by decide)⟩

/-- Counterexample to C9 as stated: for a request with a known content
length, `getRequestSize` returns the declared length alone — the
request-line and header bytes (28 here) are not included. -/
theorem overhead_not_always_counted :
    (getRequestSize sampleDeclaredReq).1 = 5 ∧
    requestOverheadBytes sampleDeclaredReq = 28 ∧
    (getRequestSize sampleDeclaredReq).1 < requestOverheadBytes sampleDeclaredReq := by
  decide

/-- C9 as amended: the request-line and header bytes are counted only on
the fallback path, when the declared content length is -1 (then the
estimate is overhead plus the measured body, or overhead alone for a nil
body); when the declared length is known, `getRequestSize` returns it alone
without any overhead bytes. -/
theorem overhead_only_on_fallback (r : Request) :
    (¬ r.contentLength = -1 → (getRequestSize r).1 = r.contentLength) ∧
    (r.contentLength = -1 → r.body = none →
      (getRequestSize r).1 = requestOverheadBytes r) ∧
    (∀ bs, r.contentLength = -1 → r.body = some { avail := bs, errAtEnd := false } →
      (getRequestSize r).1 = requestOverheadBytes r + (bs.length : Int)) := by
  refine ⟨fun hne => by simp [getRequestSize, hne], fun hcl hb => ?_, fun bs hcl hb => ?_⟩
  · have h1 : ¬ r.contentLength > 0 := by omega
    have h2 : ¬ r.contentLength = 0 := by omega
    simp [getRequestSize, calculateRequestSize, hcl, hb, h1, h2]
  · have h1 : ¬ r.contentLength > 0 := by omega
    have h2 : ¬ r.contentLength = 0 := by omega
    simp [getRequestSize, calculateRequestSize, calculateBodySizeStream, readAll,
      hcl, hb, h1, h2]

/-- Witness for C9 (amended), at a declared-length request and at a chunked
one. -/
theorem overhead_only_on_fallback_witness :
    ((getRequestSize sampleDeclaredReq).1 = sampleDeclaredReq.contentLength) ∧
    ((getRequestSize sampleStreamReq).1 =
      requestOverheadBytes sampleStreamReq + (([104, 105] : List Nat).length : Int)) :=
  ⟨(overhead_only_on_fallback sampleDeclaredReq).1 (by decide),
   (overhead_only_on_fallback sampleStreamReq).2.2 [104, 105] (by decide) (by decide)⟩

/-- C10: when the body buffering fails with an I/O error during estimation
(unknown content length), `calculateRequestSize` fails internally but
`getRequestSize` swallows the error and returns size zero; every request
field other than the already-broken body stream is left unchanged. -/
theorem estimation_error_degrades_to_zero (r : Request) (bs : List Nat)
    (hcl : r.contentLength = -1)
    (hb : r.body = some { avail := bs, errAtEnd := true }) :
    (calculateRequestSize r).1 = Except.error () ∧
    (getRequestSize r).1 = 0 ∧
    (getRequestSize r).2.method = r.method ∧
    (getRequestSize r).2.urlPath = r.urlPath ∧
    (getRequestSize r).2.urlString = r.urlString ∧
    (getRequestSize r).2.proto = r.proto ∧
    (getRequestSize r).2.headers = r.headers ∧
    (getRequestSize r).2.contentLength = r.contentLength := by
  have h1 : ¬ r.contentLength > 0 := by omega
  have h2 : ¬ r.contentLength = 0 := by omega
  simp [getRequestSize, calculateRequestSize, calculateBodySizeStream, readAll,
    hcl, hb, h1, h2]

/-- C4: the exported options `WithUnmatchedRouteGrouping` and
`WithUnmatchedRouteMarking` write only `unmatchedRoutesGrouping` and
`markUnmatchedRoutes`, fields `handleUnmatchedPath` never reads: applying
them (in either order, with any values) leaves the resolved route/path
labels of every input unchanged. -/
theorem grouping_marking_options_inert (conf : Config) (g m : Bool)
    (routePattern path : String) :
    handleUnmatchedPath (WithUnmatchedRouteGrouping g (WithUnmatchedRouteMarking m conf))
        routePattern path = handleUnmatchedPath conf routePattern path ∧
    handleUnmatchedPath (WithUnmatchedRouteMarking m (WithUnmatchedRouteGrouping g conf))
        routePattern path = handleUnmatchedPath conf routePattern path := by
  constructor <;> rfl

/-- Counterexample to C5 as stated: with unmatched-route handling disabled,
`handleUnmatchedPath` keeps the empty route pattern as the route label — it
does not return the raw path as the route. -/
theorem unmatched_opt_out_keeps_empty_route :
    handleUnmatchedPath confNoHandle "" "/ghost" = ("", "/ghost") ∧
    handleUnmatchedPath confNoHandle "" "/ghost" ≠ ("/ghost", "/ghost") := by
  decide

/-- C5 as amended: with an empty route pattern and
`handleUnmatchedRoutes = false`, `handleUnmatchedPath` returns both inputs
unchanged — the empty pattern as the route and the raw path as the path
label. -/
theorem unmatched_opt_out_unchanged (conf : Config) (path : String)
    (h : conf.handleUnmatchedRoutes = false) :
    handleUnmatchedPath conf "" path = ("", path) := by
  simp [handleUnmatchedPath, h]

/-- Witness for C5 (amended) at a concrete opted-out configuration. -/
theorem unmatched_opt_out_unchanged_witness :
    confNoHandle.handleUnmatchedRoutes = false ∧
    handleUnmatchedPath confNoHandle "" "/ghost" = ("", "/ghost") :=
  ⟨by decide, unmatched_opt_out_unchanged confNoHandle "/ghost" (by decide)⟩

/-- C6: with an empty route pattern and unmatched-route handling enabled,
the resolved route is the sentinel "/unmatched/*" when grouping is on
(independently of the raw path) and "/unmatched" ++ path when grouping is
off. -/
theorem unmatched_route_resolution (conf : Config) (path : String)
    (h : conf.handleUnmatchedRoutes = true) :
    (conf.groupUnmatchedRoutes = true →
      handleUnmatchedPath conf "" path = ("/unmatched/*", path)) ∧
    (conf.groupUnmatchedRoutes = false →
      handleUnmatchedPath conf "" path = ("/unmatched" ++ path, path)) := by
  constructor <;> intro hg <;> simp [handleUnmatchedPath, h, hg]

/-- Witness for C6: the default (grouping) configuration and the ungrouped
one, on the raw path "/ghost". -/
theorem unmatched_route_resolution_witness :
    (defaultConf.handleUnmatchedRoutes = true ∧
      defaultConf.groupUnmatchedRoutes = true ∧
      handleUnmatchedPath defaultConf "" "/ghost" = ("/unmatched/*", "/ghost")) ∧
    (confUngrouped.handleUnmatchedRoutes = true ∧
      confUngrouped.groupUnmatchedRoutes = false ∧
      handleUnmatchedPath confUngrouped "" "/ghost" = ("/unmatched" ++ "/ghost", "/ghost")) :=
  ⟨⟨by decide, by decide,
      (unmatched_route_resolution defaultConf "/ghost" (by decide)).1 (by decide)⟩,
   ⟨by decide, by decide,
      (unmatched_route_resolution confUngrouped "/ghost" (by decide)).2 (by decide)⟩⟩

/-- Counterexample to C7 as stated: at status code 600 — not a 4xx or 5xx
status code — the default aggregator returns "path_5xx", not
"missing_route". -/
theorem default_aggregator_600 :
    defaultConf.pathAggregator "" "/boom" 600 = "path_5xx" ∧
    defaultConf.pathAggregator "" "/boom" 600 ≠ "missing_route" := by
  decide

/-- C7 as amended: the default `pathAggregator` returns the route verbatim
when non-empty; with an empty route it returns "path_4xx" for status codes
in [400,500), "path_5xx" for every status code ≥ 500 (not only 500-599),
and "missing_route" otherwise. -/
theorem default_aggregator_spec (route path : String) (statusCode : Int) :
    defaultConf.pathAggregator route path statusCode =
      (if route = "" then
        if statusCode ≥ 400 ∧ statusCode < 500 then "path_4xx"
        else if statusCode ≥ 500 then "path_5xx"
        else "missing_route"
      else route) :=
  rfl

/-- C2: when the configured filter accepts the resolved (route, path) pair,
the middleware invokes the downstream handler and returns with all four
collectors untouched. -/
theorem filtered_request_untouched (conf : Config) (c : GinCtx) (elapsed : Int)
    (st : MetricsState)
    (h : conf.filterPath (resolvedLabels conf c).1 (resolvedLabels conf c).2 = true) :
    middlewareHandle conf c elapsed st = (st, true) := by
  simp [middlewareHandle, h]

/-- Witness for C2: a filter-everything configuration leaves the empty
collector state untouched. -/
theorem filtered_request_untouched_witness :
    filterAllConf.filterPath (resolvedLabels filterAllConf sampleCtx).1
        (resolvedLabels filterAllConf sampleCtx).2 = true ∧
    middlewareHandle filterAllConf sampleCtx 7 emptyState = (emptyState, true) :=
  ⟨rfl, filtered_request_untouched filterAllConf sampleCtx 7 emptyState rfl⟩

/-- C3: for every non-filtered completed request, the total-requests
counter receives exactly one increment with the computed label tuple,
whatever the three `recordX` flags are; each histogram receives exactly one
observation when its flag is on and none when it is off. -/
theorem metrics_recorded_exactly_once (conf : Config) (c : GinCtx) (elapsed : Int)
    (st : MetricsState)
    (h : conf.filterPath (resolvedLabels conf c).1 (resolvedLabels conf c).2 = false) :
    ((middlewareHandle conf c elapsed st).1).totalInc =
        labelParams conf c :: st.totalInc ∧
    ((middlewareHandle conf c elapsed st).1).respObs =
        (if conf.recordResponseSize then
          (labelParams conf c, computeResponseSize c) :: st.respObs
        else st.respObs) ∧
    ((middlewareHandle conf c elapsed st).1).reqObs =
        (if conf.recordRequestSize then
          (labelParams conf c, (getRequestSize c.request).1) :: st.reqObs
        else st.reqObs) ∧
    ((middlewareHandle conf c elapsed st).1).durObs =
        (if conf.recordDuration then
          (labelParams conf c, elapsed) :: st.durObs
        else st.durObs) := by
  have hmh : (middlewareHandle conf c elapsed st).1 =
      recordRequestMetricsWithCollection conf c (labelParams conf c) elapsed st := by
    simp only [middlewareHandle, h, Bool.false_eq_true, if_false]
    rfl
  rw [hmh]
  unfold recordRequestMetricsWithCollection
  cases h1 : conf.recordResponseSize <;> cases h2 : conf.recordRequestSize <;>
    cases h3 : conf.recordDuration <;> simp [h1, h2, h3]

/-- Witness for C3: the default configuration records the counter and all
three histograms exactly once for a completed matched request. -/
theorem metrics_recorded_exactly_once_witness :
    defaultConf.filterPath (resolvedLabels defaultConf sampleCtx).1
        (resolvedLabels defaultConf sampleCtx).2 = false ∧
    (((middlewareHandle defaultConf sampleCtx 7 emptyState).1).totalInc =
        labelParams defaultConf sampleCtx :: emptyState.totalInc ∧
      ((middlewareHandle defaultConf sampleCtx 7 emptyState).1).respObs =
        (if defaultConf.recordResponseSize then
          (labelParams defaultConf sampleCtx, computeResponseSize sampleCtx) :: emptyState.respObs
        else emptyState.respObs) ∧
      ((middlewareHandle defaultConf sampleCtx 7 emptyState).1).reqObs =
        (if defaultConf.recordRequestSize then
          (labelParams defaultConf sampleCtx, (getRequestSize sampleCtx.request).1) ::
            emptyState.reqObs
        else emptyState.reqObs) ∧
      ((middlewareHandle defaultConf sampleCtx 7 emptyState).1).durObs =
        (if defaultConf.recordDuration then
          (labelParams defaultConf sampleCtx, 7) :: emptyState.durObs
        else emptyState.durObs)) :=
  ⟨rfl, metrics_recorded_exactly_once defaultConf sampleCtx 7 emptyState rfl⟩

/-- Witness for C10 at a concrete failing body stream. -/
theorem estimation_error_degrades_to_zero_witness :
    sampleFailReq.contentLength = -1 ∧
    ((calculateRequestSize sampleFailReq).1 = Except.error () ∧
      (getRequestSize sampleFailReq).1 = 0 ∧
      (getRequestSize sampleFailReq).2.method = sampleFailReq.method ∧
      (getRequestSize sampleFailReq).2.urlPath = sampleFailReq.urlPath ∧
      (getRequestSize sampleFailReq).2.urlString = sampleFailReq.urlString ∧
      (getRequestSize sampleFailReq).2.proto = sampleFailReq.proto ∧
      (getRequestSize sampleFailReq).2.headers = sampleFailReq.headers ∧
      (getRequestSize sampleFailReq).2.contentLength = sampleFailReq.contentLength) :=
  ⟨by decide,
   estimation_error_degrades_to_zero sampleFailReq [1, 2] (by decide) (by decide)⟩

end GinProm
